import Mathlib

/-!
Verification of the resume-analyzer core (`src/app.py`) against its
specification.

The file embeds the two functions with real logic:

* `extract_text_from_pdf` (app.py lines 15-35): two-stage PDF text
  extraction — a text-layer pass with an early return, then an OCR
  fallback, both wrapped in `try/except: pass`.
* `analyze_resume` (app.py lines 39-83): prompt construction
  (`build_prompt`), the external model call (abstracted as a function
  argument), and defensive JSON parsing of the model reply
  (`parse_model_reply`).

Python strings are modelled as Lean `String`; the payload of a Python
exception is irrelevant to the control flow here, so raised exceptions
are modelled as `Except Unit`.  The JSON parser mirrors the behaviour of
Python's `json.loads` (strict decoder): JSON whitespace skipping,
`true`, `false`, `null` and the CPython extensions `NaN`, `Infinity`
and negative `Infinity`,
the stdlib number regex, strict string scanning (unescaped control
characters rejected, the standard escapes and `\uXXXX` accepted), and
last-wins duplicate-key handling in objects.  Number and string tokens
are kept as their raw lexemes: no claim depends on numeric value or on
escape decoding.
-/

/-- JSON values as produced by the modelled `json.loads`.  `num` keeps the
raw numeric lexeme; `str` keeps the raw characters between the quotes
(escape sequences unexpanded). -/
inductive Json where
  | null : Json
  | bool (b : Bool) : Json
  | num (lexeme : String) : Json
  | str (raw : String) : Json
  | arr (items : List Json) : Json
  | obj (members : List (String × Json)) : Json

/-- Whether a parsed JSON value is an object. -/
def Json.isObj : Json → Bool
  | .obj _ => true
  | _ => false

/-- JSON whitespace, as skipped by `json.loads` (regex `[ \t\n\r]*`). -/
def isJsonWs (c : Char) : Bool :=
  c = ' ' || c = '\t' || c = '\n' || c = '\r'

/-- Hexadecimal digit, for `\uXXXX` escapes. -/
def isHexDig (c : Char) : Bool :=
  c.isDigit || ('a' ≤ c && c ≤ 'f') || ('A' ≤ c && c ≤ 'F')

/-- Scan the body of a JSON string after the opening quote, as CPython's
strict `scanstring`: stops at the closing quote, rejects unescaped
control characters (code points below 0x20), accepts the eight simple
escapes and `\uXXXX` with four hex digits.  Returns the raw content and
the remaining input after the closing quote. -/
def scanString : List Char → Option (List Char × List Char)
  | [] => none
  | '"' :: rest => some ([], rest)
  | '\\' :: [] => none
  | '\\' :: e :: rest =>
    if e = '"' || e = '\\' || e = '/' || e = 'b' || e = 'f' ||
       e = 'n' || e = 'r' || e = 't' then
      (scanString rest).map (fun p => ('\\' :: e :: p.1, p.2))
    else if e = 'u' then
      match rest with
      | a :: b :: c :: d :: rest2 =>
        if isHexDig a && isHexDig b && isHexDig c && isHexDig d then
          (scanString rest2).map
            (fun p => ('\\' :: 'u' :: a :: b :: c :: d :: p.1, p.2))
        else none
      | _ => none
    else none
  | c :: rest =>
    if c.toNat < 32 then none
    else (scanString rest).map (fun p => (c :: p.1, p.2))

/-- Integer part of a JSON number: `0|[1-9][0-9]*`. -/
def scanIntPart : List Char → Option (List Char × List Char)
  | '0' :: rest => some (['0'], rest)
  | c :: rest =>
    if c.isDigit then
      let p := rest.span (·.isDigit)
      some (c :: p.1, p.2)
    else none
  | [] => none

/-- Optional fraction part of a JSON number: `(\.[0-9]+)?`.  When the
group does not match, nothing is consumed. -/
def scanFracPart (l : List Char) : List Char × List Char :=
  match l with
  | '.' :: rest =>
    let p := rest.span (·.isDigit)
    if p.1 = [] then ([], l) else ('.' :: p.1, p.2)
  | _ => ([], l)

/-- Optional exponent part of a JSON number: `([eE][-+]?[0-9]+)?`. -/
def scanExpPart (l : List Char) : List Char × List Char :=
  match l with
  | e :: rest =>
    if e = 'e' || e = 'E' then
      match rest with
      | s :: rest2 =>
        if s = '+' || s = '-' then
          let p := rest2.span (·.isDigit)
          if p.1 = [] then ([], l) else (e :: s :: p.1, p.2)
        else
          let p := rest.span (·.isDigit)
          if p.1 = [] then ([], l) else (e :: p.1, p.2)
      | [] => ([], l)
    else ([], l)
  | [] => ([], l)

/-- A JSON number lexeme, per the stdlib regex
`-?(0|[1-9][0-9]*)(\.[0-9]+)?([eE][-+]?[0-9]+)?`. -/
def scanNumber (l : List Char) : Option (List Char × List Char) :=
  let sp : List Char × List Char :=
    match l with
    | '-' :: rest => (['-'], rest)
    | _ => ([], l)
  match scanIntPart sp.2 with
  | none => none
  | some ip =>
    let fp := scanFracPart ip.2
    let ep := scanExpPart fp.2
    some (sp.1 ++ ip.1 ++ fp.1 ++ ep.1, ep.2)

/-- Insert a key into an object under construction with CPython `dict`
semantics: an existing key keeps its original position and its value is
overwritten, a new key is appended. -/
def upsert : List (String × Json) → String → Json → List (String × Json)
  | [], k, v => [(k, v)]
  | kv :: rest, k, v =>
    if kv.1 = k then (kv.1, v) :: rest else kv :: upsert rest k v

mutual

/-- One value, assuming the input starts at a non-whitespace character
(as CPython's `scan_once`).  Fuel bounds the nesting depth; callers pass
more fuel than the input length, which is always sufficient since every
nested call consumes at least one character first. -/
def parseValue : Nat → List Char → Option (Json × List Char)
  | 0, _ => none
  | n + 1, l =>
    match l with
    | [] => none
    | '"' :: rest => (scanString rest).map (fun p => (.str p.1.asString, p.2))
    | '\x7b' :: rest => parseObj n (rest.dropWhile isJsonWs)
    | '[' :: rest => parseArr n (rest.dropWhile isJsonWs)
    | _ =>
      if l.take 4 = ['t', 'r', 'u', 'e'] then some (.bool true, l.drop 4)
      else if l.take 5 = ['f', 'a', 'l', 's', 'e'] then some (.bool false, l.drop 5)
      else if l.take 4 = ['n', 'u', 'l', 'l'] then some (.null, l.drop 4)
      else if l.take 3 = ['N', 'a', 'N'] then some (.num "NaN", l.drop 3)
      else if l.take 8 = ['I', 'n', 'f', 'i', 'n', 'i', 't', 'y'] then
        some (.num "Infinity", l.drop 8)
      else if l.take 9 = ['-', 'I', 'n', 'f', 'i', 'n', 'i', 't', 'y'] then
        some (.num "-Infinity", l.drop 9)
      else (scanNumber l).map (fun p => (.num p.1.asString, p.2))

/-- Object body after the opening brace (whitespace already skipped). -/
def parseObj : Nat → List Char → Option (Json × List Char)
  | 0, _ => none
  | n + 1, l =>
    match l with
    | '\x7d' :: rest => some (.obj [], rest)
    | _ => parseMembers n l []

/-- Object members, starting at a key. -/
def parseMembers : Nat → List Char → List (String × Json) →
    Option (Json × List Char)
  | 0, _, _ => none
  | n + 1, l, acc =>
    match l with
    | '"' :: rest =>
      match scanString rest with
      | none => none
      | some kp =>
        match kp.2.dropWhile isJsonWs with
        | ':' :: r2 =>
          match parseValue n (r2.dropWhile isJsonWs) with
          | none => none
          | some vp =>
            match vp.2.dropWhile isJsonWs with
            | ',' :: r4 =>
              parseMembers n (r4.dropWhile isJsonWs)
                (upsert acc kp.1.asString vp.1)
            | '\x7d' :: r4 =>
              some (.obj (upsert acc kp.1.asString vp.1), r4)
            | _ => none
        | _ => none
    | _ => none

/-- Array body after the opening bracket (whitespace already skipped). -/
def parseArr : Nat → List Char → Option (Json × List Char)
  | 0, _ => none
  | n + 1, l =>
    match l with
    | ']' :: rest => some (.arr [], rest)
    | _ => parseItems n l []

/-- Array items, starting at a value. -/
def parseItems : Nat → List Char → List Json → Option (Json × List Char)
  | 0, _, _ => none
  | n + 1, l, acc =>
    match parseValue n l with
    | none => none
    | some vp =>
      match vp.2.dropWhile isJsonWs with
      | ',' :: r2 => parseItems n (r2.dropWhile isJsonWs) (acc ++ [vp.1])
      | ']' :: r2 => some (.arr (acc ++ [vp.1]), r2)
      | _ => none

end

/-- `json.loads` on a character list: skip leading whitespace, scan one
value, skip trailing whitespace, and require the input to be exhausted
(otherwise CPython raises "Extra data").  `none` models a raised
`json.JSONDecodeError`. -/
def loadsList (l : List Char) : Option Json :=
  match parseValue (l.length + 1) (l.dropWhile isJsonWs) with
  | some vp => if vp.2.dropWhile isJsonWs = [] then some vp.1 else none
  | none => none

/-- `json.loads` on a Python string. -/
def json_loads (s : String) : Option Json :=
  loadsList s.data

/-- Index of the first character satisfying `f`. -/
def firstIdx (f : Char → Bool) : List Char → Option Nat
  | [] => none
  | c :: rest => if f c then some 0 else (firstIdx f rest).map (· + 1)

/-- Index of the last character satisfying `f`. -/
def lastIdx (f : Char → Bool) (l : List Char) : Option Nat :=
  (firstIdx f l.reverse).map (fun k => l.length - 1 - k)

/-- Is `c` the opening brace? -/
def isLB (c : Char) : Bool := c = '\x7b'

/-- Is `c` the closing brace? -/
def isRB (c : Char) : Bool := c = '\x7d'

/-- The match of `re.search(r"\x7b[\s\S]*\x7d", s)` (app.py line 77): the
substring from the first opening brace to the last closing brace, which
exists exactly when some closing brace follows the first opening one. -/
def braceSub (l : List Char) : Option (List Char) :=
  match firstIdx isLB l, lastIdx isRB l with
  | some i, some k => if i < k then some ((l.drop i).take (k - i + 1)) else none
  | _, _ => none

/-- Errors raised by `analyze_resume`'s parsing step.  Both are Python
`ValueError`s: `json.JSONDecodeError` is a `ValueError` subclass, and the
explicit raise on app.py line 81 constructs a `ValueError` directly. -/
inductive PyError where
  | jsonDecodeError : PyError
  | valueError (msg : String) : PyError

/-- The parsing step of `analyze_resume` (app.py lines 72-83): try
`json.loads` on the whole reply; on failure search for the greedy
first-brace-to-last-brace substring and parse that (a failure of this
second `json.loads` propagates as a `JSONDecodeError`); when no such
substring exists, raise `ValueError("Model did not return valid JSON.")`. -/
def parse_model_reply (reply : String) : Except PyError Json :=
  match json_loads reply with
  | some r => Except.ok r
  | none =>
    match braceSub reply.data with
    | some sub =>
      match loadsList sub with
      | some r => Except.ok r
      | none => Except.error PyError.jsonDecodeError
    | none => Except.error (PyError.valueError "Model did not return valid JSON.")

/-- Literal text of the prompt f-string (app.py lines 42-62) before the
`resume_text` slot. -/
def promptHead : String :=
  "\n    You are an AI hiring assistant. Compare the following RESUME with the JOB DESCRIPTION.\n    Score the candidate using strict, realistic hiring criteria.\n\n    Produce a STRICT JSON OUTPUT in the following structure:\n\n    \x7b\n      \"overall_match_score\": number (0-100),\n      \"skill_match_score\": number (0-100),\n      \"experience_match_score\": number (0-100),\n      \"degree_match\": \"match\" | \"partial\" | \"no match\",\n      \"requirement_coverage\": \x7b\n          \"met\": [list],\n          \"missing\": [list]\n      \x7d,\n      \"strengths\": [list],\n      \"weaknesses\": [list],\n      \"final_decision\": \"Shortlist\" | \"Do Not Shortlist\",\n      \"explanation\": \"short paragraph explaining decision\"\n    \x7d\n    Resume:\n    "

/-- Literal text between the `resume_text` slot and the job-description
slot (app.py lines 63-66). -/
def promptMid : String := "\n\n    Job Description:\n    "

/-- Literal text after the job-description slot (app.py lines 66-67). -/
def promptTail : String := "\n    "

/-- Prompt construction in `analyze_resume` (app.py lines 42-67).  The
job-description slot renders
`job_description if job_description else "Not provided"`: a Python
falsy value — `None` (modelled as `Option.none`) or the empty string —
renders as the sentinel `"Not provided"`. -/
def build_prompt (resume_text : String) (job_description : Option String) :
    String :=
  promptHead ++ resume_text ++ promptMid ++
    (match job_description with
     | some jd => if jd = "" then "Not provided" else jd
     | none => "Not provided") ++
    promptTail

/-- `analyze_resume` (app.py lines 39-83).  The external generative-text
service (`model.generate_content`, line 69) is abstracted as the function
`model_reply` from prompt text to reply text. -/
def analyze_resume (resume_text : String) (job_description : Option String)
    (model_reply : String → String) : Except PyError Json :=
  parse_model_reply (model_reply (build_prompt resume_text job_description))

/-- Whitespace as stripped by Python's `str.strip()` (restricted to the
ASCII whitespace characters; non-ASCII Unicode whitespace is not
modelled). -/
def isPySpace (c : Char) : Bool :=
  c = ' ' || c = '\t' || c = '\n' || c = '\r' || c = '\x0b' || c = '\x0c'

/-- Remove leading and trailing characters satisfying `isPySpace`. -/
def stripL (l : List Char) : List Char :=
  ((l.dropWhile isPySpace).reverse.dropWhile isPySpace).reverse

/-- Python `str.strip()`: remove leading and trailing whitespace. -/
def pyStrip (s : String) : String :=
  ⟨stripL s.data⟩

/-- Input to `extract_text_from_pdf`: the behaviour of the two external
libraries on the PDF at the given path.  A `.error ()` models a raised
exception.

* `pages` is the outcome of `pdfplumber.open(pdf_path)` together with the
  page iteration (app.py lines 18-19): either the open itself raises, or
  it yields a list of per-page outcomes of `page.extract_text()` — raise,
  `None`, or a text (Python `None` is `Option.none`; note that
  `page.extract_text()` may also return the falsy empty string).
* `images` is the outcome of `convert_from_path(pdf_path)` (line 29):
  either it raises, or it yields a list of per-image outcomes of
  `pytesseract.image_to_string(img)` (line 31). -/
structure PdfDoc where
  pages : Except Unit (List (Except Unit (Option String)))
  images : Except Unit (List (Except Unit String))

/-- The body of the first `try` block (app.py lines 18-23) from the page
loop onward, threading the `text` variable.  The result component is
`.error ()` when an exception escapes to the `except` handler (the
accumulated `text` is retained — Python locals survive the exception),
`.ok (some t)` when the early `return text` on line 23 fires, and
`.ok none` when the block falls through. -/
def textLayerLoop : List (Except Unit (Option String)) → String →
    String × Except Unit (Option String)
  | [], text =>
    -- line 22-23: `if text.strip(): return text`
    if pyStrip text = "" then (text, Except.ok none)
    else (text, Except.ok (some text))
  | p :: rest, text =>
    match p with
    | Except.error _ => (text, Except.error ())
    | Except.ok none => textLayerLoop rest text
    | Except.ok (some s) =>
      -- line 20-21: `if page.extract_text(): text += page.extract_text()`
      textLayerLoop rest (if s = "" then text else text ++ s)

/-- The whole first `try` block: `pdfplumber.open` raising skips the loop
and jumps to the handler with `text` still empty. -/
def textLayerStage (pages : Except Unit (List (Except Unit (Option String))))
    (text : String) : String × Except Unit (Option String) :=
  match pages with
  | Except.error _ => (text, Except.error ())
  | Except.ok ps => textLayerLoop ps text

/-- The OCR loop of the second `try` block (app.py lines 30-31), threading
`text`; an exception from `pytesseract.image_to_string` aborts the loop
but the partial accumulation is retained. -/
def ocrLoop : List (Except Unit String) → String → String × Except Unit Unit
  | [], text => (text, Except.ok ())
  | i :: rest, text =>
    match i with
    | Except.error _ => (text, Except.error ())
    | Except.ok s => ocrLoop rest (text ++ s)

/-- The whole second `try` block (app.py lines 28-33): `convert_from_path`
raising leaves `text` unchanged. -/
def ocrStage (images : Except Unit (List (Except Unit String)))
    (text : String) : String × Except Unit Unit :=
  match images with
  | Except.error _ => (text, Except.error ())
  | Except.ok imgs => ocrLoop imgs text

/-- `extract_text_from_pdf` (app.py lines 15-35), instrumented: the second
component records whether the OCR fallback block was reached.  Both
`except:` handlers are bare `pass`, so an `.error` outcome of a stage is
discarded and control continues; the function itself returns
`Except`-valued to express that it never raises. -/
def extract_text_from_pdfI (doc : PdfDoc) : Except Unit String × Bool :=
  match textLayerStage doc.pages "" with
  | (_, Except.ok (some r)) => (Except.ok r, false)
  | (text1, Except.ok none) => (Except.ok (pyStrip (ocrStage doc.images text1).1), true)
  | (text1, Except.error _) => (Except.ok (pyStrip (ocrStage doc.images text1).1), true)

/-- `extract_text_from_pdf` (app.py lines 15-35). -/
def extract_text_from_pdf (doc : PdfDoc) : Except Unit String :=
  (extract_text_from_pdfI doc).1

/-- The MatchResult-shaped JSON reply from spec section 8, scenario 7. -/
def mrReplyJson : String :=
  "\x7b\"overall_match_score\":85,\"skill_match_score\":90,\"experience_match_score\":80,\"degree_match\":\"match\",\"requirement_coverage\":\x7b\"met\":[\"Python\",\"AWS\"],\"missing\":[\"Docker certification\"]\x7d,\"strengths\":[\"Strong cloud background\"],\"weaknesses\":[\"No cert\"],\"final_decision\":\"Shortlist\",\"explanation\":\"Good fit.\"\x7d"

/-- A model reply wrapping that valid JSON in prose whose leading prose
itself contains a brace pair, so the greedy first-brace-to-last-brace
substring is not the JSON object. -/
def mrWrapped : String :=
  "Here is \x7bthe result\x7d: " ++ mrReplyJson

/-!
## Supporting lemmas
-/

theorem dropWhile_dropWhile (p : Char → Bool) (l : List Char) :
    (l.dropWhile p).dropWhile p = l.dropWhile p := by
  cases h : l.dropWhile p with
  | nil => simp
  | cons a t =>
    have hp : p a = false := by
      have h2 := List.head?_dropWhile_not p l
      rw [h] at h2
      exact h2
    rw [List.dropWhile_cons_of_neg (by simp [hp])]

theorem dropWhile_getLast? (p : Char → Bool) (l : List Char)
    (h : l.dropWhile p ≠ []) :
    (l.dropWhile p).getLast? = l.getLast? := by
  induction l with
  | nil => simp at h
  | cons a t ih =>
    by_cases hp : p a = true
    · rw [List.dropWhile_cons_of_pos hp] at h ⊢
      rw [ih h]
      cases t with
      | nil => simp at h
      | cons b u => simp [List.getLast?_cons_cons]
    · rw [List.dropWhile_cons_of_neg (by simpa using hp)]

theorem stripL_idem (l : List Char) : stripL (stripL l) = stripL l := by
  unfold stripL
  set d := l.dropWhile isPySpace with hd
  set r := d.reverse.dropWhile isPySpace with hr
  have h1 : r.reverse.dropWhile isPySpace = r.reverse := by
    cases hrr : r.reverse with
    | nil => simp
    | cons a s =>
      have hrne : r ≠ [] := by
        intro h0
        rw [h0] at hrr
        simp at hrr
      have hda : d.head? = some a := by
        have e1 : r.reverse.head? = some a := by rw [hrr]; rfl
        rw [List.head?_reverse] at e1
        rw [hr] at e1
        rw [dropWhile_getLast? isPySpace d.reverse (by rw [← hr]; exact hrne)] at e1
        rw [List.getLast?_reverse] at e1
        exact e1
      have hpa : isPySpace a = false := by
        have h2 := List.head?_dropWhile_not isPySpace l
        rw [← hd, hda] at h2
        exact h2
      rw [List.dropWhile_cons_of_neg (by simp [hpa])]
  rw [h1, List.reverse_reverse]
  have h3 : r.dropWhile isPySpace = r := by
    rw [hr]
    exact dropWhile_dropWhile isPySpace d.reverse
  rw [h3]

theorem pyStrip_idem (s : String) : pyStrip (pyStrip s) = pyStrip s :=
  congrArg String.mk (stripL_idem s.data)

theorem firstIdx_append (f : Char → Bool) (p m : List Char)
    (hp : ∀ c ∈ p, f c = false) :
    firstIdx f (p ++ m) = (firstIdx f m).map (· + p.length) := by
  induction p with
  | nil =>
    simp only [List.nil_append, List.length_nil]
    cases h : firstIdx f m with
    | none => rfl
    | some k => rfl
  | cons a t ih =>
    have ha : f a = false := hp a (List.mem_cons_self a t)
    have iht := ih (fun c hc => hp c (List.mem_cons_of_mem a hc))
    rw [List.cons_append]
    show (if f a = true then some 0 else (firstIdx f (t ++ m)).map (· + 1)) = _
    rw [ha, iht]
    cases firstIdx f m with
    | none => simp
    | some k => simp [List.length_cons]; omega

theorem firstIdx_cons_pos (f : Char → Bool) (c : Char) (l : List Char)
    (h : f c = true) : firstIdx f (c :: l) = some 0 := by
  simp [firstIdx, h]

theorem braceSub_append (pre mid post : List Char)
    (hpre : ∀ c ∈ pre, c ≠ '\x7b')
    (hpost : ∀ c ∈ post, c ≠ '\x7d')
    (hhead : mid.head? = some '\x7b')
    (hlast : mid.getLast? = some '\x7d') :
    braceSub (pre ++ mid ++ post) = some mid := by
  obtain ⟨t, rfl⟩ : ∃ t, mid = '\x7b' :: t := by
    cases mid with
    | nil => simp at hhead
    | cons a t =>
      have : a = '\x7b' := by simpa using hhead
      exact ⟨t, by rw [this]⟩
  have htne : t ≠ [] := by
    intro h0
    rw [h0] at hlast
    simp at hlast
  have htlen : 1 ≤ t.length := List.length_pos.mpr htne
  have h1 : firstIdx isLB (pre ++ '\x7b' :: t ++ post) = some pre.length := by
    rw [List.append_assoc, firstIdx_append isLB pre _
      (fun c hc => by simp [isLB, hpre c hc]), List.cons_append,
      firstIdx_cons_pos isLB _ _ (by decide)]
    simp
  obtain ⟨s, hs⟩ : ∃ s, ('\x7b' :: t).reverse = '\x7d' :: s := by
    cases hmr : ('\x7b' :: t).reverse with
    | nil => simp at hmr
    | cons a s =>
      have e1 : ('\x7b' :: t).reverse.head? = some a := by rw [hmr]; rfl
      rw [List.head?_reverse, hlast] at e1
      have e2 : a = '\x7d' := (Option.some.inj e1).symm
      exact ⟨s, by rw [e2]⟩
  have h2 : lastIdx isRB (pre ++ '\x7b' :: t ++ post) =
      some (pre.length + ('\x7b' :: t).length - 1) := by
    unfold lastIdx
    have hrev : (pre ++ '\x7b' :: t ++ post).reverse =
        post.reverse ++ ('\x7d' :: (s ++ pre.reverse)) := by
      rw [List.reverse_append, List.reverse_append, hs]
      simp [List.append_assoc]
    rw [hrev, firstIdx_append isRB post.reverse _
      (fun c hc => by simp [isRB, hpost c (List.mem_reverse.mp hc)]),
      firstIdx_cons_pos isRB _ _ (by decide)]
    have hslen : s.length = t.length - 1 + 1 := by
      have := congrArg List.length hs
      simp at this
      omega
    simp [List.length_append, List.length_cons]
    omega
  unfold braceSub
  rw [h1, h2]
  have hlt : pre.length < pre.length + ('\x7b' :: t).length - 1 := by
    simp [List.length_cons]
    omega
  have hk : pre.length + ('\x7b' :: t).length - 1 - pre.length + 1 =
      ('\x7b' :: t).length := by
    simp [List.length_cons]
  show (if pre.length < pre.length + ('\x7b' :: t).length - 1 then
      some (((pre ++ '\x7b' :: t ++ post).drop pre.length).take
        (pre.length + ('\x7b' :: t).length - 1 - pre.length + 1))
    else none) = some ('\x7b' :: t)
  rw [if_pos hlt, hk, List.append_assoc, List.drop_left, List.take_left]

theorem parse_reply_of_loads (reply : String) (r : Json)
    (h : json_loads reply = some r) : parse_model_reply reply = Except.ok r := by
  unfold parse_model_reply
  rw [h]

theorem parse_reply_no_sub (reply : String)
    (h1 : json_loads reply = none) (h2 : braceSub reply.data = none) :
    parse_model_reply reply =
      Except.error (PyError.valueError "Model did not return valid JSON.") := by
  unfold parse_model_reply
  rw [h1, h2]

theorem parse_reply_sub_ok (reply : String) (sub : List Char) (r : Json)
    (h1 : json_loads reply = none) (h2 : braceSub reply.data = some sub)
    (h3 : loadsList sub = some r) :
    parse_model_reply reply = Except.ok r := by
  unfold parse_model_reply
  rw [h1, h2]
  show (match loadsList sub with
    | some r => Except.ok r
    | none => Except.error PyError.jsonDecodeError) = Except.ok r
  rw [h3]

theorem parse_reply_sub_bad (reply : String) (sub : List Char)
    (h1 : json_loads reply = none) (h2 : braceSub reply.data = some sub)
    (h3 : loadsList sub = none) :
    parse_model_reply reply = Except.error PyError.jsonDecodeError := by
  unfold parse_model_reply
  rw [h1, h2]
  show (match loadsList sub with
    | some r => Except.ok r
    | none => Except.error PyError.jsonDecodeError) =
      Except.error PyError.jsonDecodeError
  rw [h3]

theorem ocrLoop_append (imgs : List (Except Unit String)) (t : String) :
    ocrLoop imgs t = (t ++ (ocrLoop imgs "").1, (ocrLoop imgs "").2) := by
  induction imgs generalizing t with
  | nil => simp [ocrLoop, String.append_empty]
  | cons i rest ih =>
    cases i with
    | error e => simp [ocrLoop, String.append_empty]
    | ok s =>
      show ocrLoop rest (t ++ s) =
        (t ++ (ocrLoop rest ("" ++ s)).1, (ocrLoop rest ("" ++ s)).2)
      rw [String.empty_append, ih (t ++ s), ih s]
      simp [String.append_assoc]

theorem ocrStage_append (images : Except Unit (List (Except Unit String)))
    (t : String) :
    ocrStage images t = (t ++ (ocrStage images "").1, (ocrStage images "").2) := by
  cases images with
  | error e => simp [ocrStage, String.append_empty]
  | ok imgs => exact ocrLoop_append imgs t

/-!
## Claim theorems
-/

set_option maxRecDepth 40000 in
/-- C1 (counterexample): the claim quantifies over every reply that wraps a
valid MatchResult-shaped JSON object in prose, but when the surrounding
prose itself contains braces the greedy first-brace-to-last-brace
substring is not the JSON object and the parsing step fails instead of
returning the record.  Here the spec's own section-8 example JSON is
valid on its own, yet wrapped as `"Here is \x7bthe result\x7d: " ++ json`
the parsing step raises a `JSONDecodeError`. -/
theorem c1_wrapped_prose_with_braces_fails :
    (json_loads mrReplyJson).isSome = true ∧
    parse_model_reply mrWrapped = Except.error PyError.jsonDecodeError :=
  ⟨rfl, rfl⟩

/-- C1 (amended): for a reply `pre ++ j ++ post` where `j` is a valid JSON
object text (brace-delimited at both ends), the parsing step returns the
record obtained by parsing the bare `j` — for the bare reply directly,
and for the prose-wrapped reply whenever the whole reply is not itself
valid JSON, the leading prose contains no opening brace and the trailing
prose contains no closing brace. -/
theorem c1_parse_recovers_wrapped_json (pre j post : String) (v : Json)
    (hj : json_loads j = some v)
    (hhead : j.data.head? = some '\x7b')
    (hlast : j.data.getLast? = some '\x7d')
    (hpre : ∀ c ∈ pre.data, c ≠ '\x7b')
    (hpost : ∀ c ∈ post.data, c ≠ '\x7d')
    (hfull : json_loads (pre ++ j ++ post) = none) :
    parse_model_reply j = Except.ok v ∧
    parse_model_reply (pre ++ j ++ post) = Except.ok v := by
  constructor
  · exact parse_reply_of_loads j v hj
  · have hdata : (pre ++ j ++ post).data = pre.data ++ j.data ++ post.data := by
      rw [String.data_append, String.data_append]
    have hsub : braceSub (pre ++ j ++ post).data = some j.data := by
      rw [hdata]
      exact braceSub_append pre.data j.data post.data hpre hpost hhead hlast
    exact parse_reply_sub_ok (pre ++ j ++ post) j.data v hfull hsub hj

set_option maxRecDepth 4000 in
/-- C1 (witness for the amended theorem at a concrete wrapped reply). -/
theorem c1_parse_recovers_wrapped_json_w :
    parse_model_reply ("Sure! " ++ "\x7b\"overall_match_score\": 85\x7d" ++ " Bye.") =
      Except.ok (Json.obj [("overall_match_score", Json.num "85")]) :=
  (c1_parse_recovers_wrapped_json "Sure! " "\x7b\"overall_match_score\": 85\x7d"
    " Bye." (Json.obj [("overall_match_score", Json.num "85")])
    rfl rfl rfl (by decide) (by decide) rfl).2

/-- C2 (counterexample): the claim asserts that every reply with no
brace-delimited substring raises the ValidationError, but a reply whose
whole text is valid JSON — such as `"42"` — contains no brace-delimited
substring and still returns a result. -/
theorem c2_braceless_reply_can_succeed :
    braceSub ("42" : String).data = none ∧
    parse_model_reply "42" = Except.ok (Json.num "42") :=
  ⟨rfl, rfl⟩

/-- C2 (amended): the parsing step of `analyze_resume` fails if and only
if the reply can be interpreted neither by parsing the whole reply as
JSON nor by parsing the first-brace-to-last-brace substring; and for
every reply that fails whole-reply parsing and has no brace-delimited
substring it raises `ValueError("Model did not return valid JSON.")`. -/
theorem c2_parse_failure_iff_uninterpretable (reply : String) :
    ((parse_model_reply reply).isOk = false ↔
      json_loads reply = none ∧ (braceSub reply.data).bind loadsList = none) ∧
    (json_loads reply = none → braceSub reply.data = none →
      parse_model_reply reply =
        Except.error (PyError.valueError "Model did not return valid JSON.")) := by
  refine ⟨?_, fun h1 h2 => parse_reply_no_sub reply h1 h2⟩
  cases hl : json_loads reply with
  | some r =>
    rw [parse_reply_of_loads reply r hl]
    simp [Except.isOk, Except.toBool]
  | none =>
    cases hb : braceSub reply.data with
    | none =>
      rw [parse_reply_no_sub reply hl hb]
      simp [Except.isOk, Except.toBool, hl]
    | some sub =>
      cases hs : loadsList sub with
      | some r =>
        rw [parse_reply_sub_ok reply sub r hl hb hs]
        simp [Except.isOk, Except.toBool, hl, hs]
      | none =>
        rw [parse_reply_sub_bad reply sub hl hb hs]
        simp [Except.isOk, Except.toBool, hl, hs]

/-- C2 (witness): a reply with no JSON at all raises the ValueError. -/
theorem c2_parse_failure_iff_uninterpretable_w :
    parse_model_reply "I cannot process this." =
      Except.error (PyError.valueError "Model did not return valid JSON.") :=
  (c2_parse_failure_iff_uninterpretable "I cannot process this.").2 rfl rfl

/-- C3: if the text-layer stage completes and yields text that is
non-empty after trimming (the early `return text`), the function returns
exactly that text-layer text and the OCR block is never reached; and the
OCR block is reached only when the text-layer stage did not yield such a
text. -/
theorem c3_text_layer_skips_ocr (doc : PdfDoc) :
    (∀ t, (textLayerStage doc.pages "").2 = Except.ok (some t) →
      extract_text_from_pdfI doc = (Except.ok t, false)) ∧
    ((extract_text_from_pdfI doc).2 = true →
      ∀ t, (textLayerStage doc.pages "").2 ≠ Except.ok (some t)) := by
  constructor
  · intro t ht
    unfold extract_text_from_pdfI
    rcases hst : textLayerStage doc.pages "" with ⟨t1, r⟩
    rw [hst] at ht
    change r = Except.ok (some t) at ht
    subst ht
    rfl
  · intro hocr t ht
    unfold extract_text_from_pdfI at hocr
    rcases hst : textLayerStage doc.pages "" with ⟨t1, r⟩
    rw [hst] at hocr ht
    change r = Except.ok (some t) at ht
    subst ht
    exact Bool.noConfusion hocr

/-- C3 (witness): a one-page text layer is returned with no OCR. -/
theorem c3_text_layer_skips_ocr_w :
    extract_text_from_pdfI
        ⟨Except.ok [Except.ok (some "Hello")], Except.ok []⟩ =
      (Except.ok "Hello", false) :=
  (c3_text_layer_skips_ocr
    ⟨Except.ok [Except.ok (some "Hello")], Except.ok []⟩).1 "Hello" rfl

/-- C4: `extract_text_from_pdf` never raises — every input yields an
`Except.ok` result — and when the text-layer stage yields no early
return and the accumulated text plus OCR output strips to nothing, the
result is the empty string. -/
theorem c4_extract_never_raises (doc : PdfDoc) :
    (∃ s, extract_text_from_pdf doc = Except.ok s) ∧
    ((∀ t, (textLayerStage doc.pages "").2 ≠ Except.ok (some t)) →
      pyStrip (ocrStage doc.images (textLayerStage doc.pages "").1).1 = "" →
      extract_text_from_pdf doc = Except.ok "") := by
  unfold extract_text_from_pdf extract_text_from_pdfI
  rcases hst : textLayerStage doc.pages "" with ⟨t1, r⟩
  cases r with
  | error e =>
    exact ⟨⟨pyStrip (ocrStage doc.images t1).1, rfl⟩,
      fun _ h2 => congrArg Except.ok h2⟩
  | ok o =>
    cases o with
    | none =>
      exact ⟨⟨pyStrip (ocrStage doc.images t1).1, rfl⟩,
        fun _ h2 => congrArg Except.ok h2⟩
    | some u =>
      exact ⟨⟨u, rfl⟩, fun hno _ => absurd rfl (hno u)⟩

/-- C4 (witness): both stages raise immediately; the result is `ok ""`. -/
theorem c4_extract_never_raises_w :
    extract_text_from_pdf ⟨Except.error (), Except.error ()⟩ = Except.ok "" :=
  (c4_extract_never_raises ⟨Except.error (), Except.error ()⟩).2
    (fun _t h => Except.noConfusion h) rfl

/-- C5 (counterexample): the claim says the returned string is always
trimmed, but the text-layer early return gives back the accumulated text
untrimmed: a page text of `" hi "` is returned as `" hi "`. -/
theorem c5_text_layer_result_untrimmed :
    extract_text_from_pdf ⟨Except.ok [Except.ok (some " hi ")], Except.ok []⟩ =
      Except.ok " hi " ∧
    pyStrip " hi " ≠ " hi " :=
  ⟨rfl, by decide⟩

/-- C5 (amended): only the fall-through path (the one that reached the
OCR block) strips its result; every result produced with the OCR flag
set is whitespace-trimmed. -/
theorem c5_ocr_path_result_stripped (doc : PdfDoc) (s : String)
    (h : extract_text_from_pdfI doc = (Except.ok s, true)) :
    pyStrip s = s := by
  unfold extract_text_from_pdfI at h
  rcases hst : textLayerStage doc.pages "" with ⟨t1, r⟩
  rw [hst] at h
  cases r with
  | error e =>
    have h1 : pyStrip (ocrStage doc.images t1).1 = s :=
      Except.ok.inj (congrArg Prod.fst h)
    rw [← h1]
    exact pyStrip_idem _
  | ok o =>
    cases o with
    | none =>
      have h1 : pyStrip (ocrStage doc.images t1).1 = s :=
        Except.ok.inj (congrArg Prod.fst h)
      rw [← h1]
      exact pyStrip_idem _
    | some u =>
      exact Bool.noConfusion (congrArg Prod.snd h)

/-- C5 (witness): an OCR result `" X "` comes back stripped to `"X"`,
and `pyStrip` fixes it. -/
theorem c5_ocr_path_result_stripped_w : pyStrip "X" = "X" :=
  c5_ocr_path_result_stripped ⟨Except.ok [], Except.ok [Except.ok " X "]⟩
    "X" rfl

/-- C6 (counterexample): the claim says a mid-stage text-layer failure
discards the partial text so only OCR output remains, but with pages
`["AB", exception]` and OCR output `"CD"` the function returns
`"ABCD"`, not `"CD"`: the partial text survives and OCR appends to it. -/
theorem c6_partial_text_not_discarded :
    extract_text_from_pdf
        ⟨Except.ok [Except.ok (some "AB"), Except.error ()],
         Except.ok [Except.ok "CD"]⟩ =
      Except.ok "ABCD" ∧
    ("ABCD" : String) ≠ "CD" :=
  ⟨rfl, by decide⟩

/-- C6 (amended): when the text-layer stage fails partway with partial
accumulated text `t1`, that text is retained, the OCR output is appended
to it, and the function returns the stripped concatenation. -/
theorem c6_partial_text_kept_and_appended (doc : PdfDoc) (t1 : String)
    (h : textLayerStage doc.pages "" = (t1, Except.error ())) :
    extract_text_from_pdf doc =
      Except.ok (pyStrip (t1 ++ (ocrStage doc.images "").1)) := by
  unfold extract_text_from_pdf extract_text_from_pdfI
  rw [h]
  show Except.ok (pyStrip (ocrStage doc.images t1).1) = _
  rw [ocrStage_append doc.images t1]

/-- C6 (witness for the amended theorem at the counterexample input). -/
theorem c6_partial_text_kept_and_appended_w :
    extract_text_from_pdf
        ⟨Except.ok [Except.ok (some "AB"), Except.error ()],
         Except.ok [Except.ok "CD"]⟩ =
      Except.ok (pyStrip ("AB" ++ (ocrStage (Except.ok [Except.ok "CD"]) "").1)) :=
  c6_partial_text_kept_and_appended
    ⟨Except.ok [Except.ok (some "AB"), Except.error ()],
     Except.ok [Except.ok "CD"]⟩ "AB" rfl

/-- C7: a job description equal to the sentinel string `"Not provided"`
renders the same prompt, character for character, as an absent job
description. -/
theorem c7_sentinel_jd_same_prompt (resume_text : String) :
    build_prompt resume_text (some "Not provided") =
      build_prompt resume_text none := rfl

/-- C8: whatever JSON value the reply parses to — directly or through the
brace-substring recovery — is returned unchanged as the MatchResult; no
field of it is inspected, so out-of-range scores and unknown enum values
pass through. -/
theorem c8_parsed_value_returned_unvalidated (reply : String) (r : Json)
    (h : json_loads reply = some r ∨
      (json_loads reply = none ∧
        (braceSub reply.data).bind loadsList = some r)) :
    parse_model_reply reply = Except.ok r := by
  rcases h with h1 | ⟨h1, h2⟩
  · exact parse_reply_of_loads reply r h1
  · cases hb : braceSub reply.data with
    | none => rw [hb] at h2; exact Option.noConfusion h2
    | some sub =>
      rw [hb] at h2
      simp only [Option.some_bind] at h2
      exact parse_reply_sub_ok reply sub r h1 hb h2

set_option maxRecDepth 4000 in
/-- C8 (witness): a reply with a score of 250 and the non-enum value
`"banana"` for `degree_match` is returned as-is. -/
theorem c8_parsed_value_returned_unvalidated_w :
    parse_model_reply
        "\x7b\"overall_match_score\": 250, \"degree_match\": \"banana\"\x7d" =
      Except.ok (Json.obj [("overall_match_score", Json.num "250"),
        ("degree_match", Json.str "banana")]) :=
  c8_parsed_value_returned_unvalidated _ _ (Or.inl rfl)

/-- C9: an empty-string job description is Python-falsy, so it renders
the `"Not provided"` sentinel and produces the same prompt as an absent
job description. -/
theorem c9_empty_jd_same_prompt (resume_text : String) :
    build_prompt resume_text (some "") = build_prompt resume_text none := rfl

/-- C10: the parsing step never checks that the parsed top-level value is
an object: any reply whose whole text parses as a non-object JSON value
is returned as that value. -/
theorem c10_non_object_value_returned (reply : String) (v : Json)
    (h : json_loads reply = some v) (_hobj : v.isObj = false) :
    parse_model_reply reply = Except.ok v :=
  -- the top-level shape hypothesis is never needed: the code inspects nothing
  parse_reply_of_loads reply v h

/-- C10 (witness): a bare JSON array is returned as the result. -/
theorem c10_non_object_value_returned_w :
    parse_model_reply "[1, \"x\"]" =
      Except.ok (Json.arr [Json.num "1", Json.str "x"]) :=
  c10_non_object_value_returned "[1, \"x\"]"
    (Json.arr [Json.num "1", Json.str "x"]) rfl rfl
